import Mathlib

/-
  Verification development for the OBS_OSC listener (OBS_OSC.py): a shallow
  embedding of the OSC packet decoder (`packet_received` / `process_message_at`
  and its byte helpers) and of the address-pattern router (`dispatch_message`
  and the command functions acting on an abstract OBS front-end state).

  Conventions of the embedding:
  * a datagram is a `List Nat` of bytes (`self.data`); `self.msglen` is its length;
  * Python strings built with `chr` are `List Char` (Latin-1 style, one char per byte);
  * Python exceptions (IndexError / ValueError / OverflowError escaping a call)
    are `Except PyErr`; a raised exception aborts the whole dispatch, so the
    model reports only the error (side effects already performed before the
    raise are dropped by the model — no claim inspects them);
  * `struct.unpack` of a big-endian float32 is pure bit transport into a Python
    float; a float argument is therefore carried as its 32-bit pattern, and the
    operations the program applies to it (`== 1.0`, `int(...)`) are decoded
    exactly from that pattern.
-/

namespace ObsOsc

/-- Python exceptions that the script can let escape. -/
inductive PyErr where
  | indexError
  | valueError
  | overflowError
deriving DecidableEq, Repr

/-- One decoded OSC argument, as the script builds them in
`process_message_at`: `float(struct.unpack('>f',...))` is kept as the raw
32-bit big-endian pattern (bit transport, exact), `int(struct.unpack('>i',...))`
as the signed value, and an `s` argument as the extracted character list. -/
inductive OSCArg where
  | Float32 (bits : Nat)
  | Int32 (v : Int)
  | Str (s : List Char)
deriving DecidableEq, Repr

/-- The scan of `next_zero`, structurally recursive on the number of bytes
left to inspect (`data.length - si` at entry, so the fuel runs out exactly
when the index reaches the end of the data). -/
def next_zero_fuel (data : List Nat) : Nat → Nat → Nat
  | 0, si => si
  | fuel + 1, si =>
    if h : si < data.length then
      if data.get ⟨si, h⟩ = 0 then si else next_zero_fuel data fuel (si + 1)
    else si

/-- Source `next_zero(si)`: index of the first zero byte at or after `si`,
or `msglen` when none exists before the end of the data. -/
def next_zero (data : List Nat) (si : Nat) : Nat :=
  next_zero_fuel data (data.length - si) si

/-- The scan of `string_from_index`, structurally recursive like
`next_zero_fuel`. -/
def string_bytes_fuel (data : List Nat) : Nat → Nat → List Nat
  | 0, _ => []
  | fuel + 1, si =>
    if h : si < data.length then
      if data.get ⟨si, h⟩ = 0 then []
      else data.get ⟨si, h⟩ :: string_bytes_fuel data fuel (si + 1)
    else []

/-- The byte run of `string_from_index(si)`: bytes from `si` up to (not
including) the next zero byte or the end of the data. -/
def string_bytes (data : List Nat) (si : Nat) : List Nat :=
  string_bytes_fuel data (data.length - si) si

/-- Source `string_from_index(si)`: the null-terminated string starting at `si`,
one `chr(byte)` per non-zero byte. -/
def string_from_index (data : List Nat) (si : Nat) : List Char :=
  (string_bytes data si).map Char.ofNat

/-- Source `next_index_for_string(s, start)`: `start + (trunc(len(s)/4) + 1) * 4`. -/
def next_index_for_string (s : List Char) (start : Nat) : Nat :=
  start + (s.length / 4 + 1) * 4

/-- Source `next_index_for_index(i)`: `(trunc(i/4) + 1) * 4`. -/
def next_index_for_index (i : Nat) : Nat :=
  (i / 4 + 1) * 4

/-- Big-endian 32-bit read at `dl` (the four bytes `struct.unpack_from`
consumes; reads past the end give 0, which the decode loop's guards make
unreachable, matching the source). -/
def be32 (data : List Nat) (dl : Nat) : Nat :=
  data.getD dl 0 * 16777216 + data.getD (dl + 1) 0 * 65536 +
    data.getD (dl + 2) 0 * 256 + data.getD (dl + 3) 0

/-- Two's-complement reading of a 32-bit pattern, as `struct.unpack('>i', ...)`. -/
def toSigned32 (n : Nat) : Int :=
  if n < 2 ^ 31 then (n : Int) else (n : Int) - 2 ^ 32

/-- The argument-extraction `while` loop of `process_message_at`
(`while (not done) and ((dl+4) <= self.msglen)`), with the loop-local
variables (`tl`, `dl`, `args`, `oi`) as parameters, structurally recursive
on the bytes left for the type-tag index (`data.length - tl` at entry: the
loop advances `tl` by one per iteration and recurses only while `data[tl]`
is a non-zero byte, hence only while `tl` is in range, so exhausted fuel
coincides with the zero read past the end).  The `i` branch appends the
integer but leaves `dl` unchanged, exactly as the source does.  The `s`
branch keeps the source's `es <= self.msglen` guard together with its
`done = True; oi = -1` alternative. -/
def args_loop_fuel (data : List Nat) :
    Nat → Nat → Nat → List OSCArg → Int → List OSCArg × Nat × Int
  | 0, _, dl, args, oi => (args, dl, oi)
  | fuel + 1, tl, dl, args, oi =>
    if dl + 4 ≤ data.length then
      if data.getD tl 0 = 0 then
        (args, dl, oi)
      else if data.getD tl 0 = 102 then      -- ord 'f'
        args_loop_fuel data fuel (tl + 1) (dl + 4)
          (args ++ [.Float32 (be32 data dl)]) oi
      else if data.getD tl 0 = 105 then      -- ord 'i'
        args_loop_fuel data fuel (tl + 1) dl
          (args ++ [.Int32 (toSigned32 (be32 data dl))]) oi
      else if data.getD tl 0 = 115 then      -- ord 's'
        let es := next_zero data dl
        if es ≤ data.length then
          args_loop_fuel data fuel (tl + 1) (next_index_for_index es)
            (args ++ [.Str (string_from_index data dl)]) oi
        else
          (args, dl, -1)
      else                      -- unrecognized argument: don't know length
        (args, dl, -1)
    else
      (args, dl, oi)

/-- The argument-extraction loop entered at type-tag index `tl` and value
offset `dl`. -/
def args_loop (data : List Nat) (tl dl : Nat) (args : List OSCArg) (oi : Int) :
    List OSCArg × Nat × Int :=
  args_loop_fuel data (data.length - tl) tl dl args oi

/-- Source `process_message_at(si)`: decodes one message starting at byte `si`.
Returns the Python return value `oi` and the (pattern, args) pairs handed to
`dispatch_message` during the call (zero or one). -/
def process_message_at (data : List Nat) (si : Nat) :
    Int × List (List Char × List OSCArg) :=
  let zl := next_zero data si
  if zl + 4 < data.length then
    let addressPattern := string_from_index data si
    if addressPattern.headD ' ' = '/' then
      let tl := next_index_for_string addressPattern si
      let dl := next_index_for_index (next_zero data tl)
      if dl + 4 ≤ data.length then
        let tl1 := if data.getD tl 0 = 44 then tl + 1 else tl   -- ord ','
        let r := args_loop data tl1 dl [] 0
        (if r.2.2 ≠ -1 then (r.2.1 : Int) else -1, [(addressPattern, r.1)])
      else
        (-1, [(addressPattern, [])])
    else
      -- not starting with '/': oi and dl both remain 0, so the call returns 0
      (0, [])
  else
    (-1, [])

/-- The `while` loop of `packet_received`
(`while (dataindex >= 0) and (dataindex < self.msglen)`), with explicit fuel:
`none` means the loop has not finished within `fuel` iterations. -/
def packet_received_loop (data : List Nat) :
    Nat → Int → List (List Char × List OSCArg) → Option (List (List Char × List OSCArg))
  | 0, _, _ => none
  | fuel + 1, di, acc =>
    if 0 ≤ di ∧ di < (data.length : Int) then
      let r := process_message_at data di.toNat
      packet_received_loop data fuel r.1 (acc ++ r.2)
    else
      some acc

/-- Source `packet_received()`: run the scan loop from `dataindex = 0`, collecting
every (pattern, args) pair dispatched. -/
def packet_received (data : List Nat) (fuel : Nat) :
    Option (List (List Char × List OSCArg)) :=
  packet_received_loop data fuel 0 []

/-- Python `addressPattern.split(sep)` for the one-character separator
(`addressPattern.split('/') `): splits on every occurrence, keeping empty
segments, so a leading separator yields a leading empty segment. -/
def splitSlash : List Char → List (List Char)
  | [] => [[]]
  | c :: rest =>
    let r := splitSlash rest
    if c = '/' then [] :: r else (c :: r.headD []) :: r.tail

/-- Whether `c` is an ASCII decimal digit. -/
def isDigitCh (c : Char) : Bool :=
  48 ≤ c.toNat && c.toNat ≤ 57

/-- Decimal value of a digit run. -/
def digitsToNat (l : List Char) : Nat :=
  l.foldl (fun a c => a * 10 + (c.toNat - 48)) 0

/-- Python `int(s)` on a string: an optional single sign followed by a
non-empty run of ASCII decimal digits parses to its value; everything else
raises ValueError.  (The model omits Python's tolerance for surrounding
whitespace and digit-group underscores, which no address or argument the
program is given can contain anyway once it parses.) -/
def pyIntStr (s : List Char) : Except PyErr Int :=
  match s with
  | '-' :: rest =>
    if rest ≠ [] ∧ rest.all isDigitCh then .ok (-(digitsToNat rest : Int))
    else .error .valueError
  | '+' :: rest =>
    if rest ≠ [] ∧ rest.all isDigitCh then .ok (digitsToNat rest : Int)
    else .error .valueError
  | _ =>
    if s ≠ [] ∧ s.all isDigitCh then .ok (digitsToNat s : Int)
    else .error .valueError

/-- Python `int(x)` on a float32 carried as its bit pattern: decode the IEEE-754
fields exactly and truncate toward zero; `int(inf)` raises OverflowError and
`int(nan)` raises ValueError. -/
def pyIntOfFloatBits (bits : Nat) : Except PyErr Int :=
  let s := bits / 2 ^ 31
  let e := bits / 2 ^ 23 % 2 ^ 8
  let m := bits % 2 ^ 23
  if e = 255 then
    if m = 0 then .error .overflowError else .error .valueError
  else
    let M : Nat := if e = 0 then m else m + 2 ^ 23
    let ee : Nat := if e = 0 then 1 else e
    let mag : Nat := if 150 ≤ ee then M * 2 ^ (ee - 150) else M / 2 ^ (150 - ee)
    .ok (if s = 1 then -(mag : Int) else (mag : Int))

/-- Python `int(x)` applied to a decoded OSC argument. -/
def pyInt : OSCArg → Except PyErr Int
  | .Float32 bits => pyIntOfFloatBits bits
  | .Int32 v => .ok v
  | .Str s => pyIntStr s

/-- Whether Python `float(x)` succeeds on a decoded OSC argument: always for
numbers, and on a string only when it is a float literal (modeled as an
optional sign, digits, and an optional fractional part with at least one
digit overall). -/
def pyFloatOk : OSCArg → Bool
  | .Float32 _ => true
  | .Int32 _ => true
  | .Str s =>
    let body := match s with
      | '-' :: rest => rest
      | '+' :: rest => rest
      | _ => s
    match body.splitOn '.' with
    | [ds] => !ds.isEmpty && ds.all isDigitCh
    | [ds, fs] => (!ds.isEmpty || !fs.isEmpty) && ds.all isDigitCh && fs.all isDigitCh
    | _ => false

/-- Python `x == 1.0` on a decoded OSC argument: a float32 equals 1.0 exactly
when its bit pattern is 0x3F800000, an int equals it exactly when it is 1, and
a string is never equal to a number. -/
def pyEqOne : OSCArg → Bool
  | .Float32 bits => bits == 1065353216
  | .Int32 v => v == 1
  | .Str _ => false

/-- Source `check_arg_one(args)`: a single argument that compares equal to `1.0`. -/
def check_arg_one (args : List OSCArg) : Bool :=
  if args.length = 1 then
    if pyEqOne (args.getD 0 (.Int32 0)) then true else false
  else false

/-- Source `args[i]` with Python's bounds behaviour: IndexError when out of range. -/
def pyArg (args : List OSCArg) (i : Nat) : Except PyErr OSCArg :=
  if i < args.length then .ok (args.getD i (.Int32 0)) else .error .indexError

/-- The OBS front-end state visible through the obspython calls the script
makes: scene and transition identities are `Nat`, named sources are their
names.  `currentTransition` is always present (OBS always has a current
transition); the preview and program scenes may be unset. -/
structure ObsState where
  scenes : List Nat
  previewScene : Option Nat
  currentScene : Option Nat
  transitions : List Nat
  currentTransition : Nat
  sources : List (List Char)
deriving DecidableEq, Repr

/-- One call into the external obspython command interface, in order. -/
inductive Event where
  | setCurrentPreviewScene (scene : Nat)
  | setCurrentTransition (t : Nat)
  | enableFixedDuration (t : Nat) (d : Int)
  | transitionStart (t : Nat) (scene : Option Nat)
  | setCurrentScene (scene : Option Nat)
  | recordingStart
  | recordingStop
  | streamingStart
  | streamingStop
  | setVolume (name : List Char) (volume : OSCArg)
deriving DecidableEq, Repr

/-- Source `set_preview(idx)`: set the preview to `scenes[idx]` when `idx` is in
range, otherwise do nothing. -/
def set_preview (idx : Int) (st : ObsState) : ObsState × List Event :=
  if idx < (st.scenes.length : Int) ∧ 0 ≤ idx then
    let s := st.scenes.getD idx.toNat 0
    ({ st with previewScene := some s }, [.setCurrentPreviewScene s])
  else (st, [])

/-- Source `set_transition(idx)`: select `transitions[idx]` when `idx` is in range,
otherwise do nothing. -/
def set_transition (idx : Int) (st : ObsState) : ObsState × List Event :=
  if idx < (st.transitions.length : Int) ∧ 0 ≤ idx then
    let t := st.transitions.getD idx.toNat 0
    ({ st with currentTransition := t }, [.setCurrentTransition t])
  else (st, [])

/-- Source `set_transition_duration(d, idx=-1)`: pick the current transition when
`idx == -1`, else `transitions[idx]` when in range (else nothing), and enable
its fixed duration `d`. -/
def set_transition_duration (d : Int) (idx : Int) (st : ObsState) :
    ObsState × List Event :=
  let trans : Option Nat :=
    if idx = -1 then some st.currentTransition
    else if idx < (st.transitions.length : Int) ∧ 0 ≤ idx then
      some (st.transitions.getD idx.toNat 0)
    else none
  match trans with
  | some t => (st, [.enableFixedDuration t d])
  | none => (st, [])

/-- Source `transition(idx=-1)`: select `transitions[idx]` first when `idx >= 0`,
then start the current transition toward the preview scene and make the
preview scene current. -/
def transition (idx : Int) (st : ObsState) : ObsState × List Event :=
  let r := if 0 ≤ idx then set_transition idx st else (st, [])
  let st1 := r.1
  let p := st1.previewScene
  ({ st1 with currentScene := p },
    r.2 ++ [.transitionStart st1.currentTransition p, .setCurrentScene p])

/-- Source `nextScene()`: the scene after the current preview scene in list order,
falling back to `scenes[0]` in every other case; `scenes.index` raises
ValueError when the preview scene is not in the list, and `scenes[0]` raises
IndexError when there is no scene at all. -/
def nextScene (st : ObsState) : Except PyErr Nat :=
  let scenes := st.scenes
  let first : Except PyErr Nat :=
    if scenes.isEmpty then .error .indexError else .ok (scenes.getD 0 0)
  if 1 < scenes.length then
    match st.previewScene with
    | some c =>
      if scenes.contains c then
        let i := scenes.indexOf c + 1
        if i < scenes.length then .ok (scenes.getD i 0) else first
      else .error .valueError
    | none => first
  else first

/-- Source `go(idx=-1)`: compute `nextScene()` first, run `transition(idx)`, then set
the preview to the precomputed next scene. -/
def go (idx : Int) (st : ObsState) : Except PyErr (ObsState × List Event) :=
  match nextScene st with
  | .error e => .error e
  | .ok n =>
    let r := transition idx st
    .ok ({ r.1 with previewScene := some n }, r.2 ++ [.setCurrentPreviewScene n])

/-- Source `source_volume(src, volume)`: the last enumerated source whose name equals
`src` (a Python string never equals a number) gets its volume set to
`float(volume)`; no match means no effect. -/
def source_volume (src volume : OSCArg) (st : ObsState) :
    Except PyErr (ObsState × List Event) :=
  let nameEq : List Char → Bool := fun name =>
    match src with
    | .Str s => name == s
    | _ => false
  let found := st.sources.foldl
    (fun acc name => if nameEq name then some name else acc) none
  match found with
  | some f =>
    if pyFloatOk volume then .ok (st, [.setVolume f volume])
    else .error .valueError
  | none => .ok (st, [])

/-- Source `dispatch_obs_source(parts, args)`: `/obs/source/volume [NN, V.V]` and
`/obs/source/NN/volume [V.V]`. -/
def dispatch_obs_source (parts : List (List Char)) (args : List OSCArg)
    (st : ObsState) : Except PyErr (ObsState × List Event) :=
  if parts.length = 4 then
    if parts.getD 3 [] = "volume".toList then
      if args.length = 2 then
        source_volume (args.getD 0 (.Int32 0)) (args.getD 1 (.Int32 0)) st
      else .ok (st, [])
    else .ok (st, [])
  else if parts.length = 5 then
    if parts.getD 4 [] = "volume".toList then
      if args.length = 1 then
        source_volume (.Str (parts.getD 3 [])) (args.getD 0 (.Int32 0)) st
      else .ok (st, [])
    else .ok (st, [])
  else .ok (st, [])

/-- Source `dispatch_obs_transition(parts, args)`: the `/obs/transition/...` shapes.
The `duration` handlers read `args[0]` and convert path segments with `int()`
without any guard, so IndexError and ValueError escape exactly where Python
would raise them. -/
def dispatch_obs_transition (parts : List (List Char)) (args : List OSCArg)
    (st : ObsState) : Except PyErr (ObsState × List Event) :=
  if parts.length = 4 then
    if parts.getD 3 [] = "start".toList then
      if check_arg_one args then .ok (transition (-1) st) else .ok (st, [])
    else if parts.getD 3 [] = "duration".toList then
      match pyArg args 0 with
      | .error e => .error e
      | .ok a =>
        match pyInt a with
        | .error e => .error e
        | .ok d => .ok (set_transition_duration d (-1) st)
    else .ok (st, [])
  else if parts.length = 5 then
    if parts.getD 4 [] = "start".toList then
      if check_arg_one args then
        match pyIntStr (parts.getD 3 []) with
        | .error e => .error e
        | .ok n => .ok (transition (n - 1) st)
      else .ok (st, [])
    else if parts.getD 4 [] = "select".toList then
      if check_arg_one args then
        match pyIntStr (parts.getD 3 []) with
        | .error e => .error e
        | .ok n => .ok (set_transition (n - 1) st)
      else .ok (st, [])
    else if parts.getD 4 [] = "duration".toList then
      match pyArg args 0 with
      | .error e => .error e
      | .ok a =>
        match pyInt a with
        | .error e => .error e
        | .ok d =>
          match pyIntStr (parts.getD 3 []) with
          | .error e => .error e
          | .ok n => .ok (set_transition_duration d (n - 1) st)
    else if parts.getD 3 [] = "duration".toList then
      if check_arg_one args then
        match pyIntStr (parts.getD 4 []) with
        | .error e => .error e
        | .ok d => .ok (set_transition_duration d (-1) st)
      else .ok (st, [])
    else .ok (st, [])
  else .ok (st, [])

/-- Source `dispatch_obs_scene(parts, args)`: the `/obs/scene/...` shapes, all gated
by `check_arg_one` before any index conversion. -/
def dispatch_obs_scene (parts : List (List Char)) (args : List OSCArg)
    (st : ObsState) : Except PyErr (ObsState × List Event) :=
  if check_arg_one args then
    if parts.length = 5 then
      if parts.getD 4 [] = "preview".toList then
        match pyIntStr (parts.getD 3 []) with
        | .error e => .error e
        | .ok n => .ok (set_preview (n - 1) st)
      else if parts.getD 4 [] = "start".toList then
        match pyIntStr (parts.getD 3 []) with
        | .error e => .error e
        | .ok n =>
          let r1 := set_preview (n - 1) st
          let r2 := transition (-1) r1.1
          .ok (r2.1, r1.2 ++ r2.2)
      else if parts.getD 4 [] = "go".toList then
        match pyIntStr (parts.getD 3 []) with
        | .error e => .error e
        | .ok n =>
          let r1 := set_preview (n - 1) st
          match go (-1) r1.1 with
          | .error e => .error e
          | .ok r2 => .ok (r2.1, r1.2 ++ r2.2)
      else .ok (st, [])
    else if parts.length = 7 then
      if parts.getD 4 [] = "transition".toList then
        if parts.getD 6 [] = "start".toList then
          match pyIntStr (parts.getD 3 []) with
          | .error e => .error e
          | .ok n =>
            let r1 := set_preview (n - 1) st
            match pyIntStr (parts.getD 5 []) with
            | .error e => .error e
            | .ok m =>
              let r2 := transition (m - 1) r1.1
              .ok (r2.1, r1.2 ++ r2.2)
        else if parts.getD 6 [] = "go".toList then
          match pyIntStr (parts.getD 3 []) with
          | .error e => .error e
          | .ok n =>
            let r1 := set_preview (n - 1) st
            match pyIntStr (parts.getD 5 []) with
            | .error e => .error e
            | .ok m =>
              match go (m - 1) r1.1 with
              | .error e => .error e
              | .ok r2 => .ok (r2.1, r1.2 ++ r2.2)
        else .ok (st, [])
      else .ok (st, [])
    else .ok (st, [])
  else .ok (st, [])

/-- Source `dispatch_obs_go(parts, args)`: `/obs/go [1.0]`. -/
def dispatch_obs_go (parts : List (List Char)) (args : List OSCArg)
    (st : ObsState) : Except PyErr (ObsState × List Event) :=
  if check_arg_one args then go (-1) st else .ok (st, [])

/-- Source `dispatch_obs_recording(parts, args)`: `/obs/recording/start` and
`/obs/recording/stop` (two independent checks in the source). -/
def dispatch_obs_recording (parts : List (List Char)) (args : List OSCArg)
    (st : ObsState) : Except PyErr (ObsState × List Event) :=
  if check_arg_one args then
    if parts.length = 4 then
      .ok (st,
        (if parts.getD 3 [] = "start".toList then [Event.recordingStart] else []) ++
        (if parts.getD 3 [] = "stop".toList then [Event.recordingStop] else []))
    else .ok (st, [])
  else .ok (st, [])

/-- Source `dispatch_obs_streaming(parts, args)`: `/obs/streaming/start` and
`/obs/streaming/stop`. -/
def dispatch_obs_streaming (parts : List (List Char)) (args : List OSCArg)
    (st : ObsState) : Except PyErr (ObsState × List Event) :=
  if check_arg_one args then
    if parts.length = 4 then
      .ok (st,
        (if parts.getD 3 [] = "start".toList then [Event.streamingStart] else []) ++
        (if parts.getD 3 [] = "stop".toList then [Event.streamingStop] else []))
    else .ok (st, [])
  else .ok (st, [])

/-- Source `dispatch_message(addressPattern, args)`: split the pattern on `/` and
route on the second and third segments. -/
def dispatch_message (addressPattern : List Char) (args : List OSCArg)
    (st : ObsState) : Except PyErr (ObsState × List Event) :=
  let parts := splitSlash addressPattern
  if parts.length > 2 then
    if parts.getD 1 [] = "obs".toList then
      if parts.getD 2 [] = "source".toList then
        dispatch_obs_source parts args st
      else if parts.getD 2 [] = "transition".toList then
        dispatch_obs_transition parts args st
      else if parts.getD 2 [] = "scene".toList then
        dispatch_obs_scene parts args st
      else if parts.getD 2 [] = "go".toList then
        dispatch_obs_go parts args st
      else if parts.getD 2 [] = "recording".toList then
        dispatch_obs_recording parts args st
      else if parts.getD 2 [] = "streaming".toList then
        dispatch_obs_streaming parts args st
      else .ok (st, [])
    else .ok (st, [])
  else .ok (st, [])

/-- A decoded OSC message: an address pattern and its ordered arguments. -/
structure OSCMessage where
  addressPattern : List Char
  args : List OSCArg
deriving DecidableEq, Repr

/-- Modelled from the spec: the wire protocol's padding rule — a
null-terminated string occupies the next 4-byte boundary past its last
character, with at least one zero byte of padding. -/
def pad4z (l : List Nat) : List Nat :=
  l ++ List.replicate ((l.length / 4 + 1) * 4 - l.length) 0

/-- Modelled from the spec: the type-tag character of each supported argument. -/
def tagOf : OSCArg → Nat
  | .Float32 _ => 102
  | .Int32 _ => 105
  | .Str _ => 115

/-- Big-endian bytes of a 32-bit value. -/
def be32bytes (n : Nat) : List Nat :=
  [n / 16777216 % 256, n / 65536 % 256, n / 256 % 256, n % 256]

/-- Two's-complement 32-bit pattern of an integer. -/
def toU32 (v : Int) : Nat :=
  (v % (2 ^ 32 : Int)).toNat

/-- Modelled from the spec: the wire bytes of one argument value — 4 big-endian
bytes for `f` (the float's bit pattern) and `i`, a null-terminated padded
string for `s`. -/
def argBytes : OSCArg → List Nat
  | .Float32 bits => be32bytes bits
  | .Int32 v => be32bytes (toU32 v)
  | .Str s => pad4z (s.map Char.toNat)

/-- Modelled from the spec: the canonical wire encoding of a message (§6) —
padded null-terminated address pattern, padded null-terminated type-tag string
with its leading `,` marker, then the argument values in order. -/
def encode (m : OSCMessage) : List Nat :=
  pad4z (m.addressPattern.map Char.toNat) ++
    pad4z (44 :: m.args.map tagOf) ++
    (m.args.map argBytes).flatten

/-- The messages the decoder extracts (and hands to `dispatch_message`) from
one message datagram starting at offset 0. -/
def decode (data : List Nat) : List (List Char × List OSCArg) :=
  (process_message_at data 0).2

/-- Splitting a string that contains no separator yields that single segment. -/
theorem splitSlash_no_slash : ∀ (s : List Char), '/' ∉ s → splitSlash s = [s]
  | [], _ => rfl
  | c :: rest, h => by
    have hc : ¬c = '/' := fun hcc => h (hcc ▸ List.mem_cons_self c rest)
    have hr : splitSlash rest = [rest] :=
      splitSlash_no_slash rest (fun hm => h (List.mem_cons_of_mem c hm))
    simp [splitSlash, hr, hc]

/-- Claim C1 (code bug): the claim says `dispatch_message` never raises and
treats unrecognized shapes under `/obs/...` as silent no-ops, but the
`duration` handler reads `args[0]` unguarded and the index handlers convert
path segments with `int()` unguarded: for every OBS state,
`/obs/transition/duration` with an empty argument list raises IndexError, and
`/obs/transition/foo/start` with the trigger argument `1.0` raises ValueError. -/
theorem C1_dispatch_raises (st : ObsState) :
    dispatch_message "/obs/transition/duration".toList [] st =
      .error .indexError ∧
    dispatch_message "/obs/transition/foo/start".toList [.Float32 1065353216] st =
      .error .valueError :=
  ⟨rfl, rfl⟩

/-- The six-byte datagram `78 00 00 00 00 00`: its message's decoded address
pattern is `x`, which does not start with `/`. -/
def c2data : List Nat := [120, 0, 0, 0, 0, 0]

/-- Claim C2 (code bug): the claim says the packet scan always terminates and
that an address pattern not starting with `/` ends the scan, but
`process_message_at` then returns `dl = 0`, so `packet_received`'s loop
condition `0 <= dataindex < msglen` holds again with an unchanged index: on
`c2data` the loop never terminates, whatever the iteration bound. -/
theorem C2_packet_loop_diverges : ∀ fuel, packet_received c2data fuel = none := by
  have h : ∀ fuel acc, packet_received_loop c2data fuel 0 acc = none := by
    intro fuel
    induction fuel with
    | zero => intro acc; rfl
    | succ n ih =>
      intro acc
      have hstep : packet_received_loop c2data (n + 1) 0 acc =
          packet_received_loop c2data n 0 (acc ++ []) := rfl
      rw [hstep, List.append_nil]
      exact ih acc
  intro fuel
  exact h fuel []

/-- A datagram `/a\0\0,s\0\0hijk` whose single `s`-tagged argument has no zero
terminator before the buffer ends. -/
def c3data : List Nat := [47, 97, 0, 0, 44, 115, 0, 0, 104, 105, 106, 107]

/-- Claim C3 (code bug): the claim (and the source's own `done/oi = -1`
branch) says an unterminated string argument stops argument decoding and the
message is not dispatched; but `next_zero` never exceeds `msglen`, so the
source's `es <= self.msglen` guard always holds and that branch is dead: the
message IS dispatched, its string argument read up to the end of the buffer. -/
theorem C3_unterminated_string_dispatched :
    packet_received c3data 2 = some [("/a".toList, [.Str "hijk".toList])] ∧
    next_zero c3data 8 = c3data.length ∧
    (∀ (data : List Nat) (si : Nat), si ≤ data.length →
      next_zero data si ≤ data.length) := by
  refine ⟨rfl, rfl, ?_⟩
  intro data si hsi
  suffices h : ∀ fuel si, si ≤ data.length →
      next_zero_fuel data fuel si ≤ data.length by
    exact h _ si hsi
  intro fuel
  induction fuel with
  | zero => intro si hsi; exact hsi
  | succ n ih =>
    intro si hsi
    unfold next_zero_fuel
    by_cases h : si < data.length
    · rw [dif_pos h]
      by_cases hz : data.get ⟨si, h⟩ = 0
      · rw [if_pos hz]; exact Nat.le_of_lt h
      · rw [if_neg hz]; exact ih (si + 1) h
    · rw [dif_neg h]; exact hsi

/-- The datagram `/a\0\0,ii\0` followed by the big-endian values 1 and 2. -/
def c4data : List Nat := [47, 97, 0, 0, 44, 105, 105, 0, 0, 0, 0, 1, 0, 0, 0, 2]

/-- Claim C4 (code bug, acknowledged by the spec's own note): the claim says an
`i`-tagged argument advances the value offset by 4 as `f` does, but the source
leaves `dl` unchanged: starting the argument loop of `c4data` at type tag 5 and
value offset 8, both `i` arguments are read from offset 8 (yielding 1 twice,
not 1 then 2) and the loop still reports value offset 8. -/
theorem C4_int_offset_not_advanced :
    args_loop c4data 5 8 [] 0 = ([.Int32 1, .Int32 1], 8, 0) ∧
    process_message_at c4data 0 = (8, [("/a".toList, [.Int32 1, .Int32 1])]) :=
  ⟨rfl, rfl⟩

/-- The message `/a` with arguments `[Int32 1, Int32 2]`. -/
def m5 : OSCMessage := ⟨"/a".toList, [.Int32 1, .Int32 2]⟩

/-- Claim C5 (code bug, same missing-advance slip as C4): decode then encode is
not the identity on messages with supported argument types: the canonical
encoding of `/a [Int32 1, Int32 2]` decodes to `/a [Int32 1, Int32 1]`. -/
theorem C5_roundtrip_fails :
    decode (encode m5) = [(m5.addressPattern, [.Int32 1, .Int32 1])] ∧
    decode (encode m5) ≠ [(m5.addressPattern, m5.args)] := by
  refine ⟨rfl, ?_⟩
  decide

/-- Claim C6: a triggered command runs exactly when `check_arg_one` accepts
the argument list — one argument comparing equal to `1.0` — shown for
`/obs/scene/3/preview` (whose action is `set_preview(2)`), `/obs/go` and
`/obs/recording/start`, together with the gate's characterization, the effect
of `set_preview 2`, and the two concrete `[1.0]` / `[0.0]` instances. -/
theorem C6_trigger_gate :
    (∀ st args, dispatch_message "/obs/scene/3/preview".toList args st =
      .ok (if check_arg_one args then set_preview 2 st else (st, []))) ∧
    (∀ st args, dispatch_message "/obs/go".toList args st =
      (if check_arg_one args then go (-1) st else .ok (st, []))) ∧
    (∀ st args, dispatch_message "/obs/recording/start".toList args st =
      .ok (st, if check_arg_one args then [Event.recordingStart] else [])) ∧
    (∀ args, check_arg_one args = true ↔
      args.length = 1 ∧ pyEqOne (args.getD 0 (.Int32 0)) = true) ∧
    (∀ st, (set_preview 2 st).1.previewScene =
      if 2 < st.scenes.length then some (st.scenes.getD 2 0)
      else st.previewScene) ∧
    (∀ st, dispatch_message "/obs/scene/3/preview".toList
      [.Float32 1065353216] st = .ok (set_preview 2 st)) ∧
    (∀ st, dispatch_message "/obs/scene/3/preview".toList
      [.Float32 0] st = .ok (st, [])) := by
  refine ⟨?_, ?_, ?_, ?_, ?_, fun st => rfl, fun st => rfl⟩
  · intro st args
    cases hg : check_arg_one args
    · simp only [dispatch_message, dispatch_obs_scene, hg]; rfl
    · simp only [dispatch_message, dispatch_obs_scene, hg]; rfl
  · intro st args
    cases hg : check_arg_one args
    · simp only [dispatch_message, dispatch_obs_go, hg]; rfl
    · simp only [dispatch_message, dispatch_obs_go, hg]; rfl
  · intro st args
    cases hg : check_arg_one args
    · simp only [dispatch_message, dispatch_obs_recording, hg]; rfl
    · simp only [dispatch_message, dispatch_obs_recording, hg]; rfl
  · intro args
    unfold check_arg_one
    constructor
    · intro h
      by_cases h1 : args.length = 1
      · refine ⟨h1, ?_⟩
        rw [if_pos h1] at h
        by_cases h2 : pyEqOne (args.getD 0 (.Int32 0)) = true
        · exact h2
        · rw [if_neg h2] at h; exact absurd h (by simp)
      · rw [if_neg h1] at h; exact absurd h (by simp)
    · intro ⟨h1, h2⟩
      rw [if_pos h1, if_pos h2]
  · intro st
    unfold set_preview
    by_cases h : 2 < st.scenes.length
    · rw [if_pos (by constructor <;> omega)]
      simp [if_pos h]
    · rw [if_neg (by omega), if_neg h]

/-- The state `st` with its preview scene replaced by `n` (the final update
`go` performs). -/
def withPreviewScene (st : ObsState) (n : Nat) : ObsState :=
  { st with previewScene := some n }

/-- Claim C7: the go sequence computes the scene after the current preview
scene first — wrapping to the first scene past the end of the list, and also
when there is no current preview — then runs the transition, and only
afterwards sets the preview to that precomputed scene: the result state and
event trace are exactly those of `transition` followed by one final
`setCurrentPreviewScene` of the wrapped successor (first conjunct: a preview
at index `i`; second conjunct: no current preview, wrapping to `scenes[0]`). -/
theorem C7_go_sequence :
    (∀ (st : ObsState) (p i : Nat) (idx : Int),
      st.previewScene = some p → p ∈ st.scenes → st.scenes.indexOf p = i →
      go idx st = .ok
        (withPreviewScene (transition idx st).1
            (if i + 1 < st.scenes.length then st.scenes.getD (i + 1) 0
             else st.scenes.getD 0 0),
          (transition idx st).2 ++
            [Event.setCurrentPreviewScene
              (if i + 1 < st.scenes.length then st.scenes.getD (i + 1) 0
               else st.scenes.getD 0 0)])) ∧
    (∀ (st : ObsState) (idx : Int),
      st.previewScene = none → st.scenes ≠ [] →
      go idx st = .ok
        (withPreviewScene (transition idx st).1 (st.scenes.getD 0 0),
          (transition idx st).2 ++
            [Event.setCurrentPreviewScene (st.scenes.getD 0 0)])) := by
  constructor
  · intro st p i idx hp hmem hi
    have hne : st.scenes ≠ [] := by
      intro h
      rw [h] at hmem
      exact absurd hmem (List.not_mem_nil p)
    have hidx : i < st.scenes.length := hi ▸ List.indexOf_lt_length.mpr hmem
    have hcont : st.scenes.contains p = true := List.elem_eq_true_of_mem hmem
    have hie : st.scenes.isEmpty = false := by
      cases hsc : st.scenes
      · exact absurd hsc hne
      · rfl
    have hnext : nextScene st =
        .ok (if i + 1 < st.scenes.length then st.scenes.getD (i + 1) 0
             else st.scenes.getD 0 0) := by
      unfold nextScene
      rw [hp]
      by_cases hlen : 1 < st.scenes.length
      · simp only [if_pos hlen, hcont, eq_self_iff_true, if_true, hi]
        by_cases hsucc : i + 1 < st.scenes.length
        · rw [if_pos hsucc, if_pos hsucc]
        · rw [if_neg hsucc, if_neg hsucc, if_neg (by simp [hie])]
      · rw [if_neg hlen, if_neg (by simp [hie]), if_neg (by omega)]
    unfold go
    rw [hnext]
    rfl
  · intro st idx hp hne
    have hie : st.scenes.isEmpty = false := by
      cases hsc : st.scenes
      · exact absurd hsc hne
      · rfl
    have hnext : nextScene st = .ok (st.scenes.getD 0 0) := by
      unfold nextScene
      rw [hp]
      by_cases hlen : 1 < st.scenes.length
      · simp only [if_pos hlen]
        rw [if_neg (by simp [hie])]
      · rw [if_neg hlen, if_neg (by simp [hie])]
    unfold go
    rw [hnext]
    rfl

/-- Claim C7 witness: with scenes `[10, 20, 30]` and the preview on `20`
(index 1), go runs the transition toward `20` and then previews `30`
(index 2); with the preview on `30` (the last index), it wraps to `10`; with
no current preview at all, it also wraps to `10`. -/
theorem C7_go_sequence_witness :
    (go (-1) ⟨[10, 20, 30], some 20, none, [5, 6], 5, []⟩ =
      .ok (⟨[10, 20, 30], some 30, some 20, [5, 6], 5, []⟩,
        [Event.transitionStart 5 (some 20), Event.setCurrentScene (some 20),
         Event.setCurrentPreviewScene 30])) ∧
    (go (-1) ⟨[10, 20, 30], some 30, none, [5, 6], 5, []⟩ =
      .ok (⟨[10, 20, 30], some 10, some 30, [5, 6], 5, []⟩,
        [Event.transitionStart 5 (some 30), Event.setCurrentScene (some 30),
         Event.setCurrentPreviewScene 10])) ∧
    (go (-1) ⟨[10, 20, 30], none, none, [5, 6], 5, []⟩ =
      .ok (⟨[10, 20, 30], some 10, none, [5, 6], 5, []⟩,
        [Event.transitionStart 5 none, Event.setCurrentScene none,
         Event.setCurrentPreviewScene 10])) := by
  refine ⟨?_, ?_, ?_⟩
  · exact C7_go_sequence.1 ⟨[10, 20, 30], some 20, none, [5, 6], 5, []⟩ 20 1
      (-1) rfl (by decide) (by decide)
  · exact C7_go_sequence.1 ⟨[10, 20, 30], some 30, none, [5, 6], 5, []⟩ 30 2
      (-1) rfl (by decide) (by decide)
  · exact C7_go_sequence.2 ⟨[10, 20, 30], none, none, [5, 6], 5, []⟩
      (-1) rfl (by decide)

/-- Claim C8: the 4-byte alignment function returns `4 * floor(i/4) + 4`: a
multiple of 4, strictly greater than `i`, exceeding it by at most 4. -/
theorem C8_alignment (i : Nat) :
    next_index_for_index i = 4 * (i / 4) + 4 ∧
    4 ∣ next_index_for_index i ∧
    i < next_index_for_index i ∧
    1 ≤ next_index_for_index i - i ∧ next_index_for_index i - i ≤ 4 := by
  unfold next_index_for_index
  refine ⟨by omega, ⟨i / 4 + 1, by omega⟩, by omega, by omega, by omega⟩

/-- Claim C9: the trigger gate compares with Python numeric equality, so a
single Int32 argument triggers exactly when its value is 1, and a message with
the single argument `Int32 1` dispatches identically to one with the single
argument `Float32 1.0` on the triggered command shapes. -/
theorem C9_int_one_triggers :
    check_arg_one [.Int32 1] = true ∧
    (∀ v : Int, check_arg_one [.Int32 v] = decide (v = 1)) ∧
    (∀ st, dispatch_message "/obs/go".toList [.Int32 1] st =
           dispatch_message "/obs/go".toList [.Float32 1065353216] st) ∧
    (∀ st, dispatch_message "/obs/scene/3/preview".toList [.Int32 1] st =
           dispatch_message "/obs/scene/3/preview".toList
             [.Float32 1065353216] st) ∧
    (∀ st, dispatch_message "/obs/recording/start".toList [.Int32 1] st =
           dispatch_message "/obs/recording/start".toList
             [.Float32 1065353216] st) := by
  refine ⟨rfl, ?_, fun st => rfl, fun st => rfl, fun st => rfl⟩
  intro v
  by_cases h : v = 1
  · rw [h]; rfl
  · simp [check_arg_one, pyEqOne, h]

/-- Claim C10: the undocumented shape `/obs/transition/duration/{DD}`, gated
by `check_arg_one`, sets the fixed duration of the current transition to the
integer parsed from the fourth path segment. -/
theorem C10_duration_from_address (s : List Char) (d : Int) (st : ObsState)
    (args : List OSCArg) (h1 : pyIntStr s = .ok d) (hs : '/' ∉ s) :
    dispatch_message ("/obs/transition/duration/".toList ++ s) args st =
      .ok (if check_arg_one args then set_transition_duration d (-1) st
           else (st, [])) := by
  have hne1 : ¬s = "start".toList := by
    intro h
    rw [h] at h1
    rw [(rfl : pyIntStr "start".toList = Except.error PyErr.valueError)] at h1
    exact Except.noConfusion h1
  have hne2 : ¬s = "select".toList := by
    intro h
    rw [h] at h1
    rw [(rfl : pyIntStr "select".toList = Except.error PyErr.valueError)] at h1
    exact Except.noConfusion h1
  have hne3 : ¬s = "duration".toList := by
    intro h
    rw [h] at h1
    rw [(rfl : pyIntStr "duration".toList = Except.error PyErr.valueError)] at h1
    exact Except.noConfusion h1
  have hsplit : splitSlash ("/obs/transition/duration/".toList ++ s) =
      [[], "obs".toList, "transition".toList, "duration".toList, s] := by
    have htail := splitSlash_no_slash s hs
    simp [splitSlash, htail]
  have hget4 :
      ([[], "obs".toList, "transition".toList, "duration".toList, s]).getD 4 []
        = s := rfl
  cases hg : check_arg_one args
  · simp only [dispatch_message, hsplit, dispatch_obs_transition, hg, hget4,
      if_neg hne1, if_neg hne2, if_neg hne3]
    rfl
  · simp only [dispatch_message, hsplit, dispatch_obs_transition, hg, hget4,
      if_neg hne1, if_neg hne2, if_neg hne3, h1]
    rfl

/-- Claim C10 witness: `/obs/transition/duration/30` with argument `[1.0]`
enables a fixed duration of 30 on the current transition (5). -/
theorem C10_duration_from_address_witness :
    dispatch_message ("/obs/transition/duration/".toList ++ "30".toList)
      [.Float32 1065353216] ⟨[10, 20, 30], some 20, none, [5, 6], 5, []⟩ =
      .ok (⟨[10, 20, 30], some 20, none, [5, 6], 5, []⟩,
        [Event.enableFixedDuration 5 30]) :=
  C10_duration_from_address "30".toList 30
    ⟨[10, 20, 30], some 20, none, [5, 6], 5, []⟩
    [.Float32 1065353216] rfl (by decide)

end ObsOsc
